import Mathlib

/-!
# PayFlow open-banking broker — shallow embedding

A shallow embedding of the PayFlow server (`src/server.js` and the unnamed
variant `src/unnamed/part_000`) in Lean 4, together with theorems settling the
frozen claims about its specification.

The repository contains two variants of the same Express server.  They agree on
the JWT signer (`generateJWT`), the in-memory payment store, the payment
creation route, the status route and the callback route; they differ in the
body-parsing tail of `enableBankingRequest` (the variant in
`src/unnamed/part_000` falls back to `{raw: text}` on a success response whose
body is not JSON, while `src/server.js` calls `response.json()`, which rejects
on such a body).  The shared parts are embedded once; the client layer is
embedded per variant (`Part000.enableBankingRequest`, `ServerJs.enableBankingRequest`).

External effects are modelled as explicit inputs:
* the current time (`Date.now()`) is a parameter;
* the outcome of `fetch` is a `FetchResult` parameter (either an `HttpResponse`
  with status and body text, or a transport-level rejection);
* `JSON.parse` of the host runtime is an oracle `String → Option JsonV`
  (`some` when the text is well-formed JSON, `none` when parsing throws);
* an outbound-call counter is threaded through results so that "no network call
  is made" is a provable statement, and the client also reports the assertion
  it minted for the call.

JavaScript truthiness is modelled explicitly (`JsPrim.truthy` on request-body
values, `truthyS` on optional strings), matching the `if (!x)`-style checks of
the source.
-/

/-- A primitive JavaScript value, as can appear in a JSON request body field.
`undef` is the value of a destructured field that is absent. -/
inductive JsPrim
  | undef
  | jsNull
  | jsBool (b : Bool)
  | jsNum (n : Int)
  | jsStr (s : String)
deriving Repr, DecidableEq

/-- JavaScript truthiness of a primitive value: `undefined`, `null`, `false`,
`0` and `""` are falsy. -/
def JsPrim.truthy : JsPrim → Bool
  | .undef => false
  | .jsNull => false
  | .jsBool b => b
  | .jsNum n => n != 0
  | .jsStr s => !s.isEmpty

/-- Truthiness of an optional string (e.g. a query parameter, `req.query.x`,
which is `undefined` when absent and may be the empty string). -/
def truthyS : Option String → Bool
  | none => false
  | some s => !s.isEmpty

/-- A JSON value, for the bodies returned by the upstream API. -/
inductive JsonV
  | jnull
  | jbool (b : Bool)
  | jnum (n : Int)
  | jstr (s : String)
  | jarr (xs : List JsonV)
  | jobj (fields : List (String × JsonV))

/-- A JavaScript error value as it can be thrown/rejected inside
`enableBankingRequest` and propagated to the route handlers:
* `thrown msg` — an explicit `throw new Error(msg)` in the source;
* `fetchRejection reason` — the rejection of `fetch` itself on a transport
  failure (in Node a `TypeError`, a different value from any `Error` the
  source constructs), propagated unchanged;
* `jsonSyntaxError body` — the `SyntaxError` rejection of `response.json()`
  when `body` is not well-formed JSON (only reachable in the `src/server.js`
  variant). -/
inductive JsErr
  | thrown (message : String)
  | fetchRejection (reason : String)
  | jsonSyntaxError (body : String)
deriving Repr, DecidableEq

/-- The process-wide key material: `PRIVATE_KEY` (decoded from
`ENABLE_BANKING_PRIVATE_KEY`, `null` when the variable is unset) and `APP_ID`
(`ENABLE_BANKING_APP_ID`, `undefined` when unset). -/
structure KeyEnv where
  privateKey : Option String
  appId : Option String
deriving Repr, DecidableEq

/-- The payload of the JWT built by `generateJWT`. -/
structure JwtPayload where
  iss : String
  aud : String
  iat : Nat
  exp : Nat
deriving Repr, DecidableEq

/-- The signed assertion: algorithm and key id from the JWT header, plus the
payload.  The signature itself is the jwt library's work and carries no
information beyond the payload and key, so it is not modelled. -/
structure Jwt where
  alg : String
  kid : String
  payload : JwtPayload
deriving Repr, DecidableEq

/-- The assertion `generateJWT` signs when the key material is present:
payload `{iss, aud, iat: now, exp: now + 3600}`, header
`{alg: RS256, kid: APP_ID}`. -/
def mintedJwt (env : KeyEnv) (now : Nat) : Jwt :=
  { alg := "RS256", kid := env.appId.getD "",
    payload := { iss := "enablebanking.com", aud := "api.enablebanking.com",
                 iat := now, exp := now + 3600 } }

/-- Embedding of `generateJWT` (identical in both source files): throws
`Missing Enable Banking credentials` when `!PRIVATE_KEY || !APP_ID`, otherwise
signs `mintedJwt`.  `now` is `Math.floor(Date.now() / 1000)`. -/
def generateJWT (env : KeyEnv) (now : Nat) : Except JsErr Jwt :=
  if !(truthyS env.privateKey && truthyS env.appId) then
    .error (.thrown "Missing Enable Banking credentials")
  else
    .ok (mintedJwt env now)

/-- An HTTP response as seen by the client: numeric status and body text. -/
structure HttpResponse where
  status : Nat
  body : String
deriving Repr, DecidableEq

/-- `response.ok`: status in the inclusive range 200–299. -/
def HttpResponse.ok (r : HttpResponse) : Bool :=
  200 ≤ r.status && r.status ≤ 299

/-- The outcome of `fetch`: a response, or a transport-level rejection (no
response received). -/
inductive FetchResult
  | resp (r : HttpResponse)
  | reject (reason : String)
deriving Repr, DecidableEq

/-- The error message interpolated by both variants on a non-success HTTP
status: it is built from exactly the numeric status and the raw response
text. -/
def apiErrorMessage (status : Nat) (text : String) : String :=
  "API error: " ++ toString status ++ " - " ++ text

namespace Part000

/-- Embedding of `enableBankingRequest` from `src/unnamed/part_000`:
mint a JWT (propagating its throw before any network activity), perform the
fetch, read the response text; on a non-success status throw
`API error: {status} - {text}`; otherwise `JSON.parse` the text, falling back
to `{raw: text}` when parsing throws.

Result: the settled value, the number of `fetch` calls performed, and the
assertion minted for the call (`none` when signing failed). -/
def enableBankingRequest (env : KeyEnv) (now : Nat) (fr : FetchResult)
    (parse : String → Option JsonV) :
    Except JsErr JsonV × Nat × Option Jwt :=
  match generateJWT env now with
  | .error e => (.error e, 0, none)
  | .ok j =>
    match fr with
    | .reject reason => (.error (.fetchRejection reason), 1, some j)
    | .resp r =>
      if !r.ok then
        (.error (.thrown (apiErrorMessage r.status r.body)), 1, some j)
      else
        match parse r.body with
        | some v => (.ok v, 1, some j)
        | none => (.ok (.jobj [("raw", .jstr r.body)]), 1, some j)

end Part000

namespace ServerJs

/-- Embedding of `enableBankingRequest` from `src/server.js`: same signing and
error handling as the other variant, but the success branch is
`return response.json()`, which rejects with a `SyntaxError` when the body is
not well-formed JSON instead of falling back to raw text. -/
def enableBankingRequest (env : KeyEnv) (now : Nat) (fr : FetchResult)
    (parse : String → Option JsonV) :
    Except JsErr JsonV × Nat × Option Jwt :=
  match generateJWT env now with
  | .error e => (.error e, 0, none)
  | .ok j =>
    match fr with
    | .reject reason => (.error (.fetchRejection reason), 1, some j)
    | .resp r =>
      if !r.ok then
        (.error (.thrown (apiErrorMessage r.status r.body)), 1, some j)
      else
        match parse r.body with
        | some v => (.ok v, 1, some j)
        | none => (.error (.jsonSyntaxError r.body), 1, some j)

end ServerJs

/-! ## Session store and orchestrator

The orchestrator routes (`POST /api/payments`, `GET /api/payments/:id`,
`GET /callback`) are identical in behaviour across the two source variants
(they differ only in logging and in the upstream request payload, which the
claims do not touch), so they are embedded once.  The outcome of the
`enableBankingRequest` call each route makes is a parameter of the embedding,
read at the fields the route actually uses. -/

/-- A stored payment session, the value kept in the `payments` map.  `authCode`
is absent (`none`) until a callback sets it; `authUrl` and `sessionId` are
`data.url` and `data.session_id` of the upstream creation response, either of
which the upstream may omit. -/
structure Payment where
  id : String
  amount : JsPrim
  creditorIban : JsPrim
  creditorName : JsPrim
  reference : JsPrim
  bankName : JsPrim
  bankCountry : JsPrim
  status : String
  authUrl : Option String
  createdAt : String
  sessionId : Option String
  authCode : Option String
deriving Repr, DecidableEq

/-- The in-memory `payments` map: keys in insertion order, as a JavaScript
`Map` iterates them. -/
abbrev Store := List (String × Payment)

/-- `payments.get(k)`. -/
def storeGet (st : Store) (k : String) : Option Payment :=
  match st with
  | [] => none
  | e :: rest => if e.1 = k then some e.2 else storeGet rest k

/-- `payments.set(k, v)`: replace the entry for an existing key in place,
otherwise append (JavaScript `Map` keeps insertion order). -/
def storeSet (st : Store) (k : String) (v : Payment) : Store :=
  match st with
  | [] => [(k, v)]
  | e :: rest => if e.1 = k then (k, v) :: rest else e :: storeSet rest k v

/-- The request body of `POST /api/payments` after destructuring: each field
is a primitive value, `undef` when absent. -/
structure ReqBody where
  amount : JsPrim
  creditorIban : JsPrim
  creditorName : JsPrim
  reference : JsPrim
  bankName : JsPrim
  bankCountry : JsPrim
deriving Repr, DecidableEq

/-- The validation guard of `POST /api/payments`:
`!amount || !creditorIban || !creditorName || !bankName || !bankCountry`
negated. -/
def requiredPresent (b : ReqBody) : Bool :=
  b.amount.truthy && b.creditorIban.truthy && b.creditorName.truthy &&
    b.bankName.truthy && b.bankCountry.truthy

/-- The fields of the upstream payment-creation response that the route reads:
`data.payment_id`, `data.url`, `data.session_id`, each possibly absent. -/
structure CreateResp where
  payment_id : Option String
  url : Option String
  session_id : Option String
deriving Repr, DecidableEq

/-- `data.payment_id || stateId`: the stored id is the upstream payment id
when truthy, else the local correlation token. -/
def chosenPaymentId (payment_id : Option String) (stateId : String) : String :=
  match payment_id with
  | some s => if s.isEmpty then stateId else s
  | none => stateId

/-- The HTTP-level outcome of `POST /api/payments`. -/
inductive CreateResult
  | validationError
  | serverError (e : JsErr)
  | success (paymentId : String) (authUrl : Option String) (payment : Payment)
deriving Repr, DecidableEq

/-- Embedding of the `POST /api/payments` route.  `ts` is the `Date.now()`
reading used for the correlation token `payment_${ts}`, `now` the ISO
timestamp stored as `createdAt`, and `upstream` the settled outcome of the
`enableBankingRequest` call (only consulted when validation passes).  The
last component counts upstream calls made. -/
def createPayment (st : Store) (b : ReqBody) (ts : Nat) (now : String)
    (upstream : Except JsErr CreateResp) : CreateResult × Store × Nat :=
  if !requiredPresent b then (.validationError, st, 0)
  else
    match upstream with
    | .error e => (.serverError e, st, 1)
    | .ok data =>
      let stateId := "payment_" ++ toString ts
      let paymentId := chosenPaymentId data.payment_id stateId
      let payment : Payment :=
        { id := paymentId, amount := b.amount, creditorIban := b.creditorIban,
          creditorName := b.creditorName, reference := b.reference,
          bankName := b.bankName, bankCountry := b.bankCountry,
          status := "pending", authUrl := data.url, createdAt := now,
          sessionId := data.session_id, authCode := none }
      (.success paymentId data.url payment, storeSet st paymentId payment, 1)

/-- The field of the upstream status response that `GET /api/payments/:id`
reads: `data.status`, possibly absent. -/
structure StatusResp where
  status : Option String
deriving Repr, DecidableEq

/-- The HTTP-level outcome of `GET /api/payments/:id`. -/
inductive StatusResult
  | notFound
  | payment (p : Payment)
deriving Repr, DecidableEq

/-- Embedding of the `GET /api/payments/:id` route: 404 when the id is
unknown; otherwise, only when the stored session carries a truthy
`sessionId`, re-query upstream — on a successful response with a truthy
`status` overwrite the local status and re-store, and swallow any error.
The last component counts upstream calls made. -/
def getStatus (st : Store) (id : String) (upstream : Except JsErr StatusResp) :
    StatusResult × Store × Nat :=
  match storeGet st id with
  | none => (.notFound, st, 0)
  | some p =>
    if truthyS p.sessionId then
      match upstream with
      | .ok data =>
        if truthyS data.status then
          let p' := { p with status := data.status.getD "" }
          (.payment p', storeSet st id p', 1)
        else (.payment p, st, 1)
      | .error _ => (.payment p, st, 1)
    else (.payment p, st, 0)

/-- JavaScript `s.startsWith(p)`: `p` is a prefix of `s`, character by
character. -/
def strStartsWith (s p : String) : Bool :=
  p.data.isPrefixOf s.data

/-- The page rendered by `GET /callback`: the failure template (when `error`
is truthy) or the success template. -/
inductive CallbackPage
  | failure (error : String) (error_description : Option String)
  | success (state : Option String) (code : Option String)
deriving Repr, DecidableEq

/-- The match test of the callback loop: `payment.id === state || id === state`. -/
def callbackMatch (s : String) (e : String × Payment) : Bool :=
  e.2.id = s || e.1 = s

/-- The callback loop: walk the map in insertion order; at the first matching
entry set `status` to `authorized` and `authCode` to the `code` parameter,
re-store under the same key, and break.  Later entries are untouched. -/
def updateFirstMatch (s : String) (code : Option String) : Store → Store
  | [] => []
  | e :: rest =>
    if callbackMatch s e then
      (e.1, { e.2 with status := "authorized", authCode := code }) :: rest
    else e :: updateFirstMatch s code rest

/-- Embedding of the `GET /callback` route.  Query parameters are optional
strings.  When `error` is truthy the failure page is sent and the handler
returns before any store access; otherwise the store scan runs only when
`state` is truthy and has the `payment_` prefix.  The last component records
whether the store scan ran. -/
def handleCallback (st : Store) (code state error error_description : Option String) :
    CallbackPage × Store × Bool :=
  if truthyS error then
    (.failure (error.getD "") error_description, st, false)
  else if truthyS state && strStartsWith (state.getD "") "payment_" then
    (.success state code, updateFirstMatch (state.getD "") code st, true)
  else
    (.success state code, st, false)

/-! ## Store lemmas -/

/-- After `payments.set(k, v)` the value stored under `k` is `v`. -/
theorem storeGet_storeSet (st : Store) (k : String) (v : Payment) :
    storeGet (storeSet st k v) k = some v := by
  induction st with
  | nil => simp [storeSet, storeGet]
  | cons e rest ih =>
    by_cases h : e.1 = k
    · simp [storeSet, storeGet, h]
    · simp [storeSet, storeGet, h, ih]

/-- The callback scan skips a prefix none of whose entries matches. -/
theorem updateFirstMatch_append (s : String) (c : Option String) (pre rest : Store)
    (h : ∀ e ∈ pre, callbackMatch s e = false) :
    updateFirstMatch s c (pre ++ rest) = pre ++ updateFirstMatch s c rest := by
  induction pre with
  | nil => rfl
  | cons e pre ih =>
    have he : callbackMatch s e = false := h e (by simp)
    have hrest : ∀ e' ∈ pre, callbackMatch s e' = false := by
      intro e' h'
      exact h e' (by simp [h'])
    simp only [List.cons_append, updateFirstMatch, he, Bool.false_eq_true, if_false]
    exact congrArg (e :: ·) (ih hrest)

/-- The callback scan leaves a store with no matching entry unchanged. -/
theorem updateFirstMatch_noMatch (s : String) (c : Option String) (st : Store)
    (h : ∀ e ∈ st, callbackMatch s e = false) :
    updateFirstMatch s c st = st := by
  induction st with
  | nil => rfl
  | cons e rest ih =>
    have he : callbackMatch s e = false := h e (by simp)
    have hrest : ∀ e' ∈ rest, callbackMatch s e' = false := by
      intro e' h'
      exact h e' (by simp [h'])
    simp only [updateFirstMatch, he, Bool.false_eq_true, if_false, ih hrest]


/-! ## Claim theorems -/

/-- C1: a `createPayment` request missing at least one required field among
`amount`, `creditorIban`, `creditorName`, `bankName` and `bankCountry`
(destructured as `undefined`) returns the `ValidationError` (HTTP 400)
response, leaves the store untouched and makes zero Upstream Client calls. -/
theorem c1_missing_field_rejected_before_upstream (st : Store) (b : ReqBody)
    (ts : Nat) (now : String) (upstream : Except JsErr CreateResp)
    (h : b.amount = .undef ∨ b.creditorIban = .undef ∨ b.creditorName = .undef ∨
         b.bankName = .undef ∨ b.bankCountry = .undef) :
    createPayment st b ts now upstream = (.validationError, st, 0) := by
  have hreq : requiredPresent b = false := by
    rcases h with h | h | h | h | h <;> simp [requiredPresent, h, JsPrim.truthy]
  simp [createPayment, hreq]

/-- Witness for C1: a concrete request with `amount` absent is rejected with
zero upstream calls. -/
theorem c1_missing_field_rejected_before_upstream_witness :
    createPayment ([] : Store)
      ⟨.undef, .jsStr "FI001", .jsStr "Jane Doe", .undef, .jsStr "Nordea", .jsStr "FI"⟩
      5 "2024-01-01" (.ok ⟨some "p1", some "https://bank/auth", some "s1"⟩) =
      (.validationError, [], 0) :=
  c1_missing_field_rejected_before_upstream [] _ 5 "2024-01-01" _ (Or.inl rfl)

/-- C10: a `createPayment` request whose `amount` is present but falsy (for
example `0` or the empty string) is rejected exactly like a missing field:
`ValidationError` and zero Upstream Client calls — the guard tests
truthiness, not presence. -/
theorem c10_falsy_amount_rejected (st : Store) (b : ReqBody) (ts : Nat)
    (now : String) (upstream : Except JsErr CreateResp)
    (hpresent : b.amount ≠ .undef) (hfalsy : b.amount.truthy = false) :
    createPayment st b ts now upstream = (.validationError, st, 0) := by
  have hreq : requiredPresent b = false := by simp [requiredPresent, hfalsy]
  simp [createPayment, hreq]

/-- Witness for C10: `amount = 0` with every other required field supplied is
rejected with zero upstream calls. -/
theorem c10_falsy_amount_rejected_witness :
    createPayment ([] : Store)
      ⟨.jsNum 0, .jsStr "FI001", .jsStr "Jane Doe", .undef, .jsStr "Nordea", .jsStr "FI"⟩
      5 "2024-01-01" (.ok ⟨some "p1", some "https://bank/auth", some "s1"⟩) =
      (.validationError, [], 0) :=
  c10_falsy_amount_rejected [] _ 5 "2024-01-01" _ (by decide) (by decide)

/-- C2: when validation passes and the upstream call succeeds, a new Session
with status `pending` is stored under the upstream payment id (when truthy) or
the local correlation token `payment_${ts}` (when the upstream omits one), and
it is retrievable from the store under that id. -/
theorem c2_pending_session_stored_retrievable (st : Store) (b : ReqBody)
    (ts : Nat) (now : String) (data : CreateResp) (pid : String) (payment : Payment)
    (hreq : requiredPresent b = true)
    (hpid : pid = chosenPaymentId data.payment_id ("payment_" ++ toString ts))
    (hpay : payment =
      { id := pid, amount := b.amount, creditorIban := b.creditorIban,
        creditorName := b.creditorName, reference := b.reference,
        bankName := b.bankName, bankCountry := b.bankCountry,
        status := "pending", authUrl := data.url, createdAt := now,
        sessionId := data.session_id, authCode := none }) :
    createPayment st b ts now (.ok data) =
      (.success pid data.url payment, storeSet st pid payment, 1) ∧
    payment.status = "pending" ∧
    (data.payment_id = none → pid = "payment_" ++ toString ts) ∧
    (∀ s, data.payment_id = some s → s.isEmpty = false → pid = s) ∧
    storeGet (storeSet st pid payment) pid = some payment := by
  subst hpid hpay
  refine ⟨by simp [createPayment, hreq], rfl, ?_, ?_, storeGet_storeSet st _ _⟩
  · intro hnone
    simp [chosenPaymentId, hnone]
  · intro s hs hne
    simp [chosenPaymentId, hs, hne]

/-- Witness for C2, mirroring the spec's end-to-end scenario A: a valid
request against an upstream returning
`{payment_id: "p1", url: "https://bank/auth", session_id: "s1"}` stores a
`pending` session under `p1` and finds it again there. -/
theorem c2_pending_session_stored_retrievable_witness :
    createPayment ([] : Store)
        ⟨.jsNum 100, .jsStr "FI001", .jsStr "Jane Doe", .undef, .jsStr "Nordea", .jsStr "FI"⟩
        5 "2024-01-01" (.ok ⟨some "p1", some "https://bank/auth", some "s1"⟩) =
      (.success "p1" (some "https://bank/auth")
        { id := "p1", amount := .jsNum 100, creditorIban := .jsStr "FI001",
          creditorName := .jsStr "Jane Doe", reference := .undef,
          bankName := .jsStr "Nordea", bankCountry := .jsStr "FI",
          status := "pending", authUrl := some "https://bank/auth",
          createdAt := "2024-01-01", sessionId := some "s1", authCode := none },
       [("p1",
         { id := "p1", amount := .jsNum 100, creditorIban := .jsStr "FI001",
           creditorName := .jsStr "Jane Doe", reference := .undef,
           bankName := .jsStr "Nordea", bankCountry := .jsStr "FI",
           status := "pending", authUrl := some "https://bank/auth",
           createdAt := "2024-01-01", sessionId := some "s1", authCode := none })],
       1) ∧
    storeGet
        [("p1",
          { id := "p1", amount := .jsNum 100, creditorIban := .jsStr "FI001",
            creditorName := .jsStr "Jane Doe", reference := .undef,
            bankName := .jsStr "Nordea", bankCountry := .jsStr "FI",
            status := "pending", authUrl := some "https://bank/auth",
            createdAt := "2024-01-01", sessionId := some "s1", authCode := none })]
        "p1" =
      some
        { id := "p1", amount := .jsNum 100, creditorIban := .jsStr "FI001",
          creditorName := .jsStr "Jane Doe", reference := .undef,
          bankName := .jsStr "Nordea", bankCountry := .jsStr "FI",
          status := "pending", authUrl := some "https://bank/auth",
          createdAt := "2024-01-01", sessionId := some "s1", authCode := none } := by
  have h := c2_pending_session_stored_retrievable ([] : Store)
    ⟨.jsNum 100, .jsStr "FI001", .jsStr "Jane Doe", .undef, .jsStr "Nordea", .jsStr "FI"⟩
    5 "2024-01-01" ⟨some "p1", some "https://bank/auth", some "s1"⟩ "p1"
    { id := "p1", amount := .jsNum 100, creditorIban := .jsStr "FI001",
      creditorName := .jsStr "Jane Doe", reference := .undef,
      bankName := .jsStr "Nordea", bankCountry := .jsStr "FI",
      status := "pending", authUrl := some "https://bank/auth",
      createdAt := "2024-01-01", sessionId := some "s1", authCode := none }
    (by decide) (by decide) (by decide)
  exact ⟨h.1, h.2.2.2.2⟩

/-- C3: for a stored pending Session whose id equals the (payment-prefixed)
correlation token of an error-free callback, the callback sets the Session's
state to `authorized` and records the authorization code; replaying the same
callback leaves the store exactly as after the first call — the state stays
`authorized` and the recorded code is unchanged. -/
theorem c3_callback_authorizes_and_is_idempotent (pre post : Store) (k tok : String)
    (p : Payment) (code : Option String)
    (hpre : ∀ e ∈ pre, callbackMatch tok e = false)
    (hid : p.id = tok)
    (hpfx : strStartsWith tok "payment_" = true)
    (hpending : p.status = "pending") :
    handleCallback (pre ++ (k, p) :: post) code (some tok) none none =
      (.success (some tok) code,
       pre ++ (k, { p with status := "authorized", authCode := code }) :: post,
       true) ∧
    handleCallback
        (pre ++ (k, { p with status := "authorized", authCode := code }) :: post)
        code (some tok) none none =
      (.success (some tok) code,
       pre ++ (k, { p with status := "authorized", authCode := code }) :: post,
       true) := by
  have hne : tok.isEmpty = false := by
    cases hemp : tok.isEmpty
    · rfl
    · rw [String.isEmpty_iff] at hemp
      rw [hemp] at hpfx
      simp [strStartsWith, List.isPrefixOf] at hpfx
  have hm : callbackMatch tok (k, p) = true := by
    simp [callbackMatch, hid]
  have hm' : callbackMatch tok (k, { p with status := "authorized", authCode := code }) = true := by
    simp [callbackMatch, hid]
  have hout : ∀ st : Store, handleCallback st code (some tok) none none =
      (.success (some tok) code, updateFirstMatch tok code st, true) := by
    intro st
    simp [handleCallback, truthyS, hne, hpfx]
  constructor
  · rw [hout, updateFirstMatch_append tok code pre _ hpre]
    simp [updateFirstMatch, hm]
  · rw [hout, updateFirstMatch_append tok code pre _ hpre]
    simp [updateFirstMatch, hm']

/-- Witness for C3, mirroring the spec's scenario B: a pending session stored
under `payment_12345` is authorized by `GET /callback?code=abc&state=payment_12345`,
with `authCode = "abc"`, and a replay of the same callback leaves the store
unchanged. -/
theorem c3_callback_authorizes_and_is_idempotent_witness :
    handleCallback
        [("payment_12345",
          { id := "payment_12345", amount := .jsNum 100, creditorIban := .jsStr "FI001",
            creditorName := .jsStr "Jane Doe", reference := .undef,
            bankName := .jsStr "Nordea", bankCountry := .jsStr "FI",
            status := "pending", authUrl := some "https://bank/auth",
            createdAt := "2024-01-01", sessionId := some "s1", authCode := none })]
        (some "abc") (some "payment_12345") none none =
      (.success (some "payment_12345") (some "abc"),
       [("payment_12345",
         { id := "payment_12345", amount := .jsNum 100, creditorIban := .jsStr "FI001",
           creditorName := .jsStr "Jane Doe", reference := .undef,
           bankName := .jsStr "Nordea", bankCountry := .jsStr "FI",
           status := "authorized", authUrl := some "https://bank/auth",
           createdAt := "2024-01-01", sessionId := some "s1", authCode := some "abc" })],
       true) ∧
    handleCallback
        [("payment_12345",
          { id := "payment_12345", amount := .jsNum 100, creditorIban := .jsStr "FI001",
            creditorName := .jsStr "Jane Doe", reference := .undef,
            bankName := .jsStr "Nordea", bankCountry := .jsStr "FI",
            status := "authorized", authUrl := some "https://bank/auth",
            createdAt := "2024-01-01", sessionId := some "s1", authCode := some "abc" })]
        (some "abc") (some "payment_12345") none none =
      (.success (some "payment_12345") (some "abc"),
       [("payment_12345",
         { id := "payment_12345", amount := .jsNum 100, creditorIban := .jsStr "FI001",
           creditorName := .jsStr "Jane Doe", reference := .undef,
           bankName := .jsStr "Nordea", bankCountry := .jsStr "FI",
           status := "authorized", authUrl := some "https://bank/auth",
           createdAt := "2024-01-01", sessionId := some "s1", authCode := some "abc" })],
       true) :=
  c3_callback_authorizes_and_is_idempotent [] [] "payment_12345" "payment_12345"
    { id := "payment_12345", amount := .jsNum 100, creditorIban := .jsStr "FI001",
      creditorName := .jsStr "Jane Doe", reference := .undef,
      bankName := .jsStr "Nordea", bankCountry := .jsStr "FI",
      status := "pending", authUrl := some "https://bank/auth",
      createdAt := "2024-01-01", sessionId := some "s1", authCode := none }
    (some "abc") (by simp) (by decide) (by decide) (by decide)

/-- C4 counterexample: the claim quantifies over every invocation in which
the `error` parameter is present, but a present-but-empty error
(`GET /callback?error=&state=payment_12345&code=abc`, which Express parses to
`req.query.error === ""`) makes the guard `if (error)` falsy: the handler
falls through to the matching loop, performs the lookup (scan flag `true`)
and mutates the matching pending Session to `authorized`. -/
theorem c4_counterexample_empty_error_still_mutates :
    handleCallback
        [("payment_12345",
          { id := "payment_12345", amount := .jsNum 100, creditorIban := .jsStr "FI001",
            creditorName := .jsStr "Jane Doe", reference := .undef,
            bankName := .jsStr "Nordea", bankCountry := .jsStr "FI",
            status := "pending", authUrl := some "https://bank/auth",
            createdAt := "2024-01-01", sessionId := some "s1", authCode := none })]
        (some "abc") (some "payment_12345") (some "") none =
      (.success (some "payment_12345") (some "abc"),
       [("payment_12345",
         { id := "payment_12345", amount := .jsNum 100, creditorIban := .jsStr "FI001",
           creditorName := .jsStr "Jane Doe", reference := .undef,
           bankName := .jsStr "Nordea", bankCountry := .jsStr "FI",
           status := "authorized", authUrl := some "https://bank/auth",
           createdAt := "2024-01-01", sessionId := some "s1", authCode := some "abc" })],
       true) := by
  rfl

/-- C4 (amended): a callback carrying a truthy `error` parameter (present
with a non-empty value — the guard `if (error)` tests truthiness, not mere
presence) renders the failure page, performs no store lookup (the scan flag
is `false`) and leaves the Session Store exactly as it was — even when a
matching correlation token is also supplied. -/
theorem c4_error_callback_mutates_nothing (st : Store)
    (code state error error_description : Option String)
    (herr : truthyS error = true) :
    handleCallback st code state error error_description =
      (.failure (error.getD "") error_description, st, false) := by
  simp [handleCallback, herr]

/-- Witness for the amended C4, mirroring the spec's scenario C:
`error=access_denied` with a token matching a stored pending session changes
nothing. -/
theorem c4_error_callback_mutates_nothing_witness :
    handleCallback
        [("payment_12345",
          { id := "payment_12345", amount := .jsNum 100, creditorIban := .jsStr "FI001",
            creditorName := .jsStr "Jane Doe", reference := .undef,
            bankName := .jsStr "Nordea", bankCountry := .jsStr "FI",
            status := "pending", authUrl := some "https://bank/auth",
            createdAt := "2024-01-01", sessionId := some "s1", authCode := none })]
        (some "abc") (some "payment_12345") (some "access_denied") none =
      (.failure "access_denied" none,
       [("payment_12345",
         { id := "payment_12345", amount := .jsNum 100, creditorIban := .jsStr "FI001",
           creditorName := .jsStr "Jane Doe", reference := .undef,
           bankName := .jsStr "Nordea", bankCountry := .jsStr "FI",
           status := "pending", authUrl := some "https://bank/auth",
           createdAt := "2024-01-01", sessionId := some "s1", authCode := none })],
       false) :=
  c4_error_callback_mutates_nothing _ (some "abc") (some "payment_12345")
    (some "access_denied") none (by decide)

/-- C9: an error-free callback whose correlation token matches no stored
Session — including a token without the `payment_` prefix and an absent token
— renders the success page and leaves the Session Store unchanged. -/
theorem c9_orphan_callback_accepted_unchanged (st : Store)
    (code state error_description : Option String)
    (hnm : ∀ s, state = some s → ∀ e ∈ st, callbackMatch s e = false) :
    (handleCallback st code state none error_description).1 = .success state code ∧
    (handleCallback st code state none error_description).2.1 = st := by
  cases state with
  | none => simp [handleCallback, truthyS]
  | some s =>
    have hs := hnm s rfl
    cases hemp : s.isEmpty with
    | true => simp [handleCallback, truthyS, hemp]
    | false =>
      cases hpfx : strStartsWith s "payment_" with
      | false => simp [handleCallback, truthyS, hemp, hpfx]
      | true =>
        simp [handleCallback, truthyS, hemp, hpfx,
          updateFirstMatch_noMatch s code st hs]

/-- Witness for C9: a prefixed token matching nothing in a nonempty store is
accepted and the store is untouched. -/
theorem c9_orphan_callback_accepted_unchanged_witness :
    (handleCallback
        [("payment_12345",
          { id := "payment_12345", amount := .jsNum 100, creditorIban := .jsStr "FI001",
            creditorName := .jsStr "Jane Doe", reference := .undef,
            bankName := .jsStr "Nordea", bankCountry := .jsStr "FI",
            status := "pending", authUrl := some "https://bank/auth",
            createdAt := "2024-01-01", sessionId := some "s1", authCode := none })]
        (some "abc") (some "payment_999") none none).1 =
      .success (some "payment_999") (some "abc") ∧
    (handleCallback
        [("payment_12345",
          { id := "payment_12345", amount := .jsNum 100, creditorIban := .jsStr "FI001",
            creditorName := .jsStr "Jane Doe", reference := .undef,
            bankName := .jsStr "Nordea", bankCountry := .jsStr "FI",
            status := "pending", authUrl := some "https://bank/auth",
            createdAt := "2024-01-01", sessionId := some "s1", authCode := none })]
        (some "abc") (some "payment_999") none none).2.1 =
      [("payment_12345",
        { id := "payment_12345", amount := .jsNum 100, creditorIban := .jsStr "FI001",
          creditorName := .jsStr "Jane Doe", reference := .undef,
          bankName := .jsStr "Nordea", bankCountry := .jsStr "FI",
          status := "pending", authUrl := some "https://bank/auth",
          createdAt := "2024-01-01", sessionId := some "s1", authCode := none })] :=
  c9_orphan_callback_accepted_unchanged _ (some "abc") (some "payment_999") none
    (by decide)

/-- C5: `getStatus` returns `NotFound` for an unknown id with no upstream
call; for a stored Session without a truthy upstream session identifier it
returns the Session unchanged with no upstream call; with a session
identifier, a successful re-query carrying a status string overwrites the
local state verbatim and re-stores it, while a failed re-query is swallowed
and the last-known Session is returned. -/
theorem c5_getStatus_reconciliation (st : Store) (id : String)
    (up : Except JsErr StatusResp) :
    (storeGet st id = none → getStatus st id up = (.notFound, st, 0)) ∧
    (∀ p, storeGet st id = some p → truthyS p.sessionId = false →
      getStatus st id up = (.payment p, st, 0)) ∧
    (∀ p s, storeGet st id = some p → truthyS p.sessionId = true →
      up = .ok ⟨some s⟩ → s.isEmpty = false →
      getStatus st id up =
        (.payment { p with status := s }, storeSet st id { p with status := s }, 1)) ∧
    (∀ p e, storeGet st id = some p → truthyS p.sessionId = true → up = .error e →
      getStatus st id up = (.payment p, st, 1)) := by
  refine ⟨?_, ?_, ?_, ?_⟩
  · intro h
    simp [getStatus, h]
  · intro p hp hsid
    simp [getStatus, hp, hsid]
  · intro p s hp hsid hup hs
    subst hup
    have hts : truthyS (some s) = true := by simp [truthyS, hs]
    simp [getStatus, hp, hsid, hts]
  · intro p e hp hsid hup
    subst hup
    simp [getStatus, hp, hsid]

/-- The stored session used by the C5 witness, with no upstream session
identifier. -/
def c5PayLocal : Payment :=
  { id := "p2", amount := .jsNum 100, creditorIban := .jsStr "FI001",
    creditorName := .jsStr "Jane Doe", reference := .undef,
    bankName := .jsStr "Nordea", bankCountry := .jsStr "FI",
    status := "pending", authUrl := some "https://bank/auth",
    createdAt := "2024-01-01", sessionId := none, authCode := none }

/-- The stored session used by the C5 witness, carrying the upstream session
identifier `s1`. -/
def c5PayRemote : Payment :=
  { id := "p3", amount := .jsNum 100, creditorIban := .jsStr "FI001",
    creditorName := .jsStr "Jane Doe", reference := .undef,
    bankName := .jsStr "Nordea", bankCountry := .jsStr "FI",
    status := "pending", authUrl := some "https://bank/auth",
    createdAt := "2024-01-01", sessionId := some "s1", authCode := none }

/-- Witness for C5: the four branches at concrete inputs — unknown id; a
session with no upstream session id returned untouched without a call; a
successful re-query overwriting the status with `completed` verbatim; a
failed re-query swallowed, returning the stored session. -/
theorem c5_getStatus_reconciliation_witness :
    getStatus ([] : Store) "nope" (.error (.thrown "boom")) = (.notFound, [], 0) ∧
    getStatus [("p2", c5PayLocal)] "p2" (.error (.thrown "boom")) =
      (.payment c5PayLocal, [("p2", c5PayLocal)], 0) ∧
    getStatus [("p3", c5PayRemote)] "p3" (.ok ⟨some "completed"⟩) =
      (.payment { c5PayRemote with status := "completed" },
       [("p3", { c5PayRemote with status := "completed" })], 1) ∧
    getStatus [("p3", c5PayRemote)] "p3" (.error (.thrown "down")) =
      (.payment c5PayRemote, [("p3", c5PayRemote)], 1) := by
  refine ⟨(c5_getStatus_reconciliation [] "nope" (.error (.thrown "boom"))).1 rfl,
    (c5_getStatus_reconciliation [("p2", c5PayLocal)] "p2"
      (.error (.thrown "boom"))).2.1 c5PayLocal rfl rfl,
    (c5_getStatus_reconciliation [("p3", c5PayRemote)] "p3"
      (.ok ⟨some "completed"⟩)).2.2.1 c5PayRemote "completed" rfl rfl rfl rfl,
    (c5_getStatus_reconciliation [("p3", c5PayRemote)] "p3"
      (.error (.thrown "down"))).2.2.2 c5PayRemote (.thrown "down") rfl rfl rfl⟩

/-- A parse oracle for concrete inputs: it is only ever applied to texts that
are not well-formed JSON, where `JSON.parse` throws. -/
def parseNoneOracle : String → Option JsonV := fun _ => none

/-- C6: every outbound call mints a fresh assertion — the one returned by
`generateJWT` at the call's own clock reading — whose `exp` equals `iat` plus
3600 seconds and is therefore strictly greater than `iat`; with missing key
material the mint throws `Missing Enable Banking credentials` and no fetch is
performed (call count 0, no assertion attached). -/
theorem c6_fresh_assertion_or_signing_failure (env : KeyEnv) (now : Nat)
    (fr : FetchResult) (parse : String → Option JsonV) :
    ((truthyS env.privateKey && truthyS env.appId) = true →
      generateJWT env now = .ok (mintedJwt env now) ∧
      (mintedJwt env now).payload.iat = now ∧
      (mintedJwt env now).payload.exp = (mintedJwt env now).payload.iat + 3600 ∧
      (mintedJwt env now).payload.iat < (mintedJwt env now).payload.exp ∧
      (Part000.enableBankingRequest env now fr parse).2.2 = some (mintedJwt env now) ∧
      (ServerJs.enableBankingRequest env now fr parse).2.2 = some (mintedJwt env now)) ∧
    ((truthyS env.privateKey && truthyS env.appId) = false →
      Part000.enableBankingRequest env now fr parse =
        (.error (.thrown "Missing Enable Banking credentials"), 0, none) ∧
      ServerJs.enableBankingRequest env now fr parse =
        (.error (.thrown "Missing Enable Banking credentials"), 0, none)) := by
  constructor
  · intro h
    have hj : generateJWT env now = .ok (mintedJwt env now) := by
      simp [generateJWT, h]
    refine ⟨hj, rfl, rfl, by show now < now + 3600; omega, ?_, ?_⟩
    · cases fr with
      | reject reason => simp [Part000.enableBankingRequest, hj]
      | resp r =>
        cases hok : r.ok with
        | false => simp [Part000.enableBankingRequest, hj, hok]
        | true =>
          cases hp : parse r.body with
          | none => simp [Part000.enableBankingRequest, hj, hok, hp]
          | some v => simp [Part000.enableBankingRequest, hj, hok, hp]
    · cases fr with
      | reject reason => simp [ServerJs.enableBankingRequest, hj]
      | resp r =>
        cases hok : r.ok with
        | false => simp [ServerJs.enableBankingRequest, hj, hok]
        | true =>
          cases hp : parse r.body with
          | none => simp [ServerJs.enableBankingRequest, hj, hok, hp]
          | some v => simp [ServerJs.enableBankingRequest, hj, hok, hp]
  · intro h
    have hj : generateJWT env now =
        .error (.thrown "Missing Enable Banking credentials") := by
      simp [generateJWT, h]
    exact ⟨by simp [Part000.enableBankingRequest, hj],
           by simp [ServerJs.enableBankingRequest, hj]⟩

/-- Witness for C6: with key material present the assertion of the call at
time 10 has `iat = 10` and `exp = 3610`; with the private key missing the
client fails before any fetch. -/
theorem c6_fresh_assertion_or_signing_failure_witness :
    generateJWT ⟨some "key", some "app"⟩ 10 =
      .ok (mintedJwt ⟨some "key", some "app"⟩ 10) ∧
    (mintedJwt ⟨some "key", some "app"⟩ 10).payload.iat = 10 ∧
    (mintedJwt ⟨some "key", some "app"⟩ 10).payload.exp =
      (mintedJwt ⟨some "key", some "app"⟩ 10).payload.iat + 3600 ∧
    (mintedJwt ⟨some "key", some "app"⟩ 10).payload.iat <
      (mintedJwt ⟨some "key", some "app"⟩ 10).payload.exp ∧
    (Part000.enableBankingRequest ⟨some "key", some "app"⟩ 10 (.reject "down")
        parseNoneOracle).2.2 = some (mintedJwt ⟨some "key", some "app"⟩ 10) ∧
    (ServerJs.enableBankingRequest ⟨some "key", some "app"⟩ 10 (.reject "down")
        parseNoneOracle).2.2 = some (mintedJwt ⟨some "key", some "app"⟩ 10) ∧
    Part000.enableBankingRequest ⟨none, some "app"⟩ 10 (.reject "down")
        parseNoneOracle =
      (.error (.thrown "Missing Enable Banking credentials"), 0, none) := by
  have ha := (c6_fresh_assertion_or_signing_failure ⟨some "key", some "app"⟩ 10
    (.reject "down") parseNoneOracle).1 (by decide)
  have hb := (c6_fresh_assertion_or_signing_failure ⟨none, some "app"⟩ 10
    (.reject "down") parseNoneOracle).2 (by decide)
  exact ⟨ha.1, ha.2.1, ha.2.2.1, ha.2.2.2.1, ha.2.2.2.2.1, ha.2.2.2.2.2, hb.1⟩

/-- C7: a non-success HTTP status makes both client variants fail with the
thrown error built from exactly the numeric status and the raw response text
(`API error: {status} - {text}`), while a transport failure with no response
produces the propagated fetch rejection — a different error value from every
thrown one, so the two failure kinds are distinguishable. -/
theorem c7_upstream_error_distinguishable (env : KeyEnv) (now : Nat)
    (r : HttpResponse) (reason : String) (parse : String → Option JsonV)
    (hkeys : (truthyS env.privateKey && truthyS env.appId) = true)
    (hbad : r.ok = false) :
    (Part000.enableBankingRequest env now (.resp r) parse).1 =
      .error (.thrown (apiErrorMessage r.status r.body)) ∧
    (ServerJs.enableBankingRequest env now (.resp r) parse).1 =
      .error (.thrown (apiErrorMessage r.status r.body)) ∧
    (Part000.enableBankingRequest env now (.reject reason) parse).1 =
      .error (.fetchRejection reason) ∧
    (ServerJs.enableBankingRequest env now (.reject reason) parse).1 =
      .error (.fetchRejection reason) ∧
    (∀ m rsn, JsErr.thrown m ≠ JsErr.fetchRejection rsn) := by
  have hj : generateJWT env now = .ok (mintedJwt env now) := by
    simp [generateJWT, hkeys]
  refine ⟨?_, ?_, ?_, ?_, ?_⟩
  · simp [Part000.enableBankingRequest, hj, hbad]
  · simp [ServerJs.enableBankingRequest, hj, hbad]
  · simp [Part000.enableBankingRequest, hj]
  · simp [ServerJs.enableBankingRequest, hj]
  · intro m rsn h
    exact JsErr.noConfusion h

/-- Witness for C7: a 404 with body `Not found` yields the thrown
`API error: 404 - Not found` in both variants; a socket failure yields the
distinct fetch rejection. -/
theorem c7_upstream_error_distinguishable_witness :
    (Part000.enableBankingRequest ⟨some "key", some "app"⟩ 10
        (.resp ⟨404, "Not found"⟩) parseNoneOracle).1 =
      .error (.thrown (apiErrorMessage 404 "Not found")) ∧
    (ServerJs.enableBankingRequest ⟨some "key", some "app"⟩ 10
        (.resp ⟨404, "Not found"⟩) parseNoneOracle).1 =
      .error (.thrown (apiErrorMessage 404 "Not found")) ∧
    (Part000.enableBankingRequest ⟨some "key", some "app"⟩ 10
        (.reject "socket hang up") parseNoneOracle).1 =
      .error (.fetchRejection "socket hang up") ∧
    apiErrorMessage 404 "Not found" = "API error: 404 - Not found" ∧
    JsErr.thrown "API error: 404 - Not found" ≠ JsErr.fetchRejection "socket hang up" := by
  have h := c7_upstream_error_distinguishable ⟨some "key", some "app"⟩ 10
    ⟨404, "Not found"⟩ "socket hang up" parseNoneOracle (by decide) (by decide)
  exact ⟨h.1, h.2.1, h.2.2.1, rfl, h.2.2.2.2 _ _⟩

/-- C8 counterexample: the claim quantifies over every Upstream Client call of
the repository, but in the `src/server.js` variant a success-status response
whose body is not well-formed JSON makes the call fail with the `SyntaxError`
rejection of `response.json()` instead of succeeding with a raw-text
fallback. -/
theorem c8_counterexample_serverjs_fails_on_raw_body :
    (ServerJs.enableBankingRequest ⟨some "key", some "app"⟩ 0
        (.resp ⟨200, "upstream says hello"⟩) parseNoneOracle).1 =
      .error (.jsonSyntaxError "upstream says hello") := by
  rfl

/-- C8 (amended): in the `src/unnamed/part_000` variant, a success-status
response whose body is not well-formed JSON succeeds with the raw-text
fallback `{raw: text}`; in the `src/server.js` variant the same call fails
with the JSON `SyntaxError`. -/
theorem c8_amended_raw_fallback (env : KeyEnv) (now : Nat) (r : HttpResponse)
    (parse : String → Option JsonV)
    (hkeys : (truthyS env.privateKey && truthyS env.appId) = true)
    (hok : r.ok = true) (hraw : parse r.body = none) :
    Part000.enableBankingRequest env now (.resp r) parse =
      (.ok (.jobj [("raw", .jstr r.body)]), 1, some (mintedJwt env now)) ∧
    (ServerJs.enableBankingRequest env now (.resp r) parse).1 =
      .error (.jsonSyntaxError r.body) := by
  have hj : generateJWT env now = .ok (mintedJwt env now) := by
    simp [generateJWT, hkeys]
  exact ⟨by simp [Part000.enableBankingRequest, hj, hok, hraw],
         by simp [ServerJs.enableBankingRequest, hj, hok, hraw]⟩

/-- Witness for the amended C8 at a concrete non-JSON body. -/
theorem c8_amended_raw_fallback_witness :
    Part000.enableBankingRequest ⟨some "key", some "app"⟩ 0
        (.resp ⟨200, "upstream says hello"⟩) parseNoneOracle =
      (.ok (.jobj [("raw", .jstr "upstream says hello")]), 1,
       some (mintedJwt ⟨some "key", some "app"⟩ 0)) ∧
    (ServerJs.enableBankingRequest ⟨some "key", some "app"⟩ 0
        (.resp ⟨200, "upstream says hello"⟩) parseNoneOracle).1 =
      .error (.jsonSyntaxError "upstream says hello") :=
  c8_amended_raw_fallback ⟨some "key", some "app"⟩ 0 ⟨200, "upstream says hello"⟩
    parseNoneOracle (by decide) (by decide) rfl
